import Mathlib

/-!
Verification of the greylitsearcher core logic.

This file gives a shallow embedding of the two core routines of the
repository and proves properties of them:

* the multi-tier paginated search accumulation in `main.py`
  (the module-level loop run when the Search button is pressed,
  lines 167-258), and
* `DirectAirtableIntegration.save_results` in
  `direct_airtable_integration.py` (lines 72-176).

External services are modelled as oracles: the search service is a
function from (tier, terms, page) to an optional list of result links
(`None` models the all-credentials-exhausted sentinel of
`google_search`), and the tabular store is a pair of oracles giving,
per item index, the outcome of the duplicate lookup (`none` models the
lookup raising) and of the record creation (`false` models the write
raising).  Store interactions and progress-callback invocations are
returned as explicit traces so that temporal claims can be stated.
-/

/-- One search result item as accumulated by `save_results`' caller:
`title`, `link`, `snippet` and the optional `priority` key
(`item.get('priority', priority)` in the source). -/
structure Item where
  title : String
  link : String
  snippet : String
  priority : Option Nat
deriving Repr, DecidableEq

/-- The mutable counter dictionary `stats` of `save_results`. -/
structure Stats where
  processed : Nat
  created : Nat
  duplicates : Nat
  errors : Nat
deriving Repr, DecidableEq

/-- A store operation issued by `save_results`: the duplicate lookup
`table.all(formula=match({"link": link}), max_records=1)` or the record
creation `table.create(record)`.  Record contents beyond the link are
not inspected by any claim, so an operation carries its link only. -/
inductive Op where
  | lookup (link : String)
  | create (link : String)
deriving Repr, DecidableEq

/-- Whether a store operation is a record creation. -/
def Op.isCreate : Op → Bool
  | .create _ => true
  | .lookup _ => false

/-- The outcome of processing some items: the updated `stats`, the trace
of store operations issued, and the trace of progress-callback
invocations `(processed_arg, total, created, errors)` (the source passes
`idx + 1` as the first argument). -/
structure SaveOut where
  stats : Stats
  ops : List Op
  calls : List (Nat × Nat × Nat × Nat)
deriving Repr, DecidableEq

/-- The flattening loop of `save_results` (lines 103-109): build
`all_items` as `(item, query, item_priority)` triples, where `query` is
`search_queries.get(website, f"search on {website}")` and
`item_priority` is `item.get('priority', priority)`. -/
def flattenItems (results : List (String × List Item))
    (queries : List (String × String)) (prio : Nat) :
    List (Item × String × Nat) :=
  results.flatMap (fun wp =>
    (wp.2.map (fun item =>
      (item, ((queries.lookup wp.1).getD ("search on " ++ wp.1)),
        item.priority.getD prio))))

/-- The write attempt of `save_results` (lines 139-155 with the outer
`except` of lines 157-161): issue `table.create`; on success increment
`created` and `processed` and invoke the callback; on failure increment
`errors` and `processed` and invoke the callback.  `lookupOps` is the
lookup operation already issued for this item, if any. -/
def attemptCreate (cenv : Nat → Bool) (total idx : Nat) (link : String)
    (lookupOps : List Op) (s : Stats) : SaveOut :=
  if cenv idx then
    ⟨⟨s.processed + 1, s.created + 1, s.duplicates, s.errors⟩,
      lookupOps ++ [Op.create link],
      [(idx + 1, total, s.created + 1, s.errors)]⟩
  else
    ⟨⟨s.processed + 1, s.created, s.duplicates, s.errors + 1⟩,
      lookupOps ++ [Op.create link],
      [(idx + 1, total, s.created, s.errors + 1)]⟩

/-- The per-item body of `save_results` (lines 113-161).
`lenv idx` is the duplicate-lookup oracle: `some true` means a matching
record exists, `some false` means none exists, `none` means the lookup
raised (the `except` of lines 133-137 swallows and falls through to the
write).  `cenv idx` is the creation oracle: `false` means
`table.create` raised.  An empty link increments `errors` and
`processed` and continues without invoking the callback (lines
115-119). -/
def processOne (check : Bool) (lenv : Nat → Option Bool)
    (cenv : Nat → Bool) (total idx : Nat) (t : Item × String × Nat)
    (s : Stats) : SaveOut :=
  if t.1.link = "" then
    ⟨⟨s.processed + 1, s.created, s.duplicates, s.errors + 1⟩, [], []⟩
  else if check then
    match lenv idx with
    | some true =>
        ⟨⟨s.processed + 1, s.created, s.duplicates + 1, s.errors⟩,
          [Op.lookup t.1.link],
          [(idx + 1, total, s.created, s.errors)]⟩
    | some false =>
        attemptCreate cenv total idx t.1.link [Op.lookup t.1.link] s
    | none =>
        attemptCreate cenv total idx t.1.link [Op.lookup t.1.link] s
  else
    attemptCreate cenv total idx t.1.link [] s

/-- The main `for idx, (item, query, item_priority) in enumerate(all_items)`
loop of `save_results` (lines 113-175), threading `stats` and collecting
the operation and callback traces. -/
def saveLoop (check : Bool) (lenv : Nat → Option Bool)
    (cenv : Nat → Bool) (total : Nat) :
    Nat → List (Item × String × Nat) → Stats → SaveOut
  | _, [], s => ⟨s, [], []⟩
  | idx, t :: ts, s =>
    let o := processOne check lenv cenv total idx t s
    let rest := saveLoop check lenv cenv total (idx + 1) ts o.stats
    ⟨rest.stats, o.ops ++ rest.ops, o.calls ++ rest.calls⟩

/-- `save_results` (lines 72-176): flatten the per-site mapping, then
process every `(item, query, priority)` triple in order starting from
zeroed stats. -/
def saveResults (check : Bool) (lenv : Nat → Option Bool)
    (cenv : Nat → Bool) (results : List (String × List Item))
    (queries : List (String × String)) (prio : Nat) : SaveOut :=
  let allItems := flattenItems results queries prio
  saveLoop check lenv cenv allItems.length 0 allItems ⟨0, 0, 0, 0⟩

/-- Total number of input items across all sites of the input mapping. -/
def totalItems (results : List (String × List Item)) : Nat :=
  (results.map (fun wp => wp.2.length)).sum

/-! ## The result accumulator of `main.py` -/

/-- One accumulated result item: its link and the `item['priority']`
tag assigned by the tier that fetched it (lines 192-193, 222-223,
251-252 of `main.py`). -/
structure RItem where
  link : String
  priority : Nat
deriving Repr, DecidableEq

/-- One tier's four search-term text fields (`and`/`exact`/`any`/`none`
inputs of one Search expander in `main.py`). -/
structure TierTerms where
  andTerms : String
  exactTerms : String
  anyTerms : String
  noneTerms : String
deriving Repr, DecidableEq

/-- Python truthiness of `(and2 or exact2 or any2 or none2)`
(lines 203, 231 of `main.py`): at least one field is non-empty. -/
def tierActive (t : TierTerms) : Bool :=
  !(t.andTerms == "") || !(t.exactTerms == "") ||
    !(t.anyTerms == "") || !(t.noneTerms == "")

/-- The tier 2/3 merge step (lines 225-226, 253-254 of `main.py`):
extend the accumulated list with the page's items whose link does not
already occur in the accumulated list.  The membership test is against
the list as it stood before the page was merged, so two equal links
within one page are both kept. -/
def dedupExtend (acc tagged : List RItem) : List RItem :=
  acc ++ tagged.filter (fun it =>
    decide (¬ it.link ∈ acc.map RItem.link))

/-- Merging one fetched page into the accumulated list: every raw item
is tagged with the tier's priority (`item['priority'] = prio`, lines
192-193, 222-223, 251-252 of `main.py`); tier 1 extends without
deduplication (`dedup = false`, lines 195-196), tiers 2 and 3
deduplicate against the accumulated list (`dedup = true`, lines
225-226, 253-254). -/
def tierStep (dedup : Bool) (prio : Nat) (acc : List RItem)
    (items : List String) : List RItem :=
  if dedup then dedupExtend acc (items.map (fun l => RItem.mk l prio))
  else acc ++ items.map (fun l => RItem.mk l prio)

/-- One tier's page loop (`for page in range(budget)` at lines 186, 216,
245 of `main.py`).  `fetchT page` is the search-service oracle for this
tier: `none` models `google_search` returning `None` after exhausting
all credentials.  Returns the accumulated list and the number of page
requests issued.  The loop breaks after a page when the accumulated
count reaches 40 or the page returned fewer than 10 raw items (lines
197, 228, 256). -/
def tierLoop (dedup : Bool) (prio : Nat)
    (fetchT : Nat → Option (List String)) :
    Nat → Nat → List RItem → List RItem × Nat
  | 0, _, acc => (acc, 0)
  | fuel + 1, page, acc =>
    match fetchT page with
    | none => (acc, 1)
    | some items =>
      if 40 ≤ (tierStep dedup prio acc items).length
          || items.length < 10 then
        (tierStep dedup prio acc items, 1)
      else
        ((tierLoop dedup prio fetchT fuel (page + 1)
            (tierStep dedup prio acc items)).1,
          (tierLoop dedup prio fetchT fuel (page + 1)
            (tierStep dedup prio acc items)).2 + 1)

/-- Tier 1 for one site (lines 186-198 of `main.py`): always runs,
regardless of whether any tier-1 field is filled, with a 4-page budget,
priority tag 1, no deduplication, starting from the empty list.
`fetch tier terms page` is the search-service oracle. -/
def tier1Run (t1 : TierTerms)
    (fetch : Nat → TierTerms → Nat → Option (List String)) :
    List RItem × Nat :=
  tierLoop false 1 (fetch 1 t1) 4 0 []

/-- Tier 2 for one site (lines 203-229 of `main.py`): runs only when the
tier-1 accumulation is still below 40 and some tier-2 field is
non-empty; 8-page budget, priority tag 2, with deduplication.  The
second component is the number of tier-2 page requests issued. -/
def tier2Run (t1 t2 : TierTerms)
    (fetch : Nat → TierTerms → Nat → Option (List String)) :
    List RItem × Nat :=
  let a1 := (tier1Run t1 fetch).1
  if a1.length < 40 && tierActive t2 then
    tierLoop true 2 (fetch 2 t2) 8 0 a1
  else (a1, 0)

/-- Tier 3 for one site (lines 231-257 of `main.py`): runs only when the
accumulation after tier 2 is still below 40 and some tier-3 field is
non-empty; 10-page budget, priority tag 3, with deduplication. -/
def tier3Run (t1 t2 t3 : TierTerms)
    (fetch : Nat → TierTerms → Nat → Option (List String)) :
    List RItem × Nat :=
  let a2 := (tier2Run t1 t2 fetch).1
  if a2.length < 40 && tierActive t3 then
    tierLoop true 3 (fetch 3 t3) 10 0 a2
  else (a2, 0)

/-- The full accumulation for one site: the three tiers followed by the
final truncation `[:40]` (line 258 of `main.py`). -/
def runSite (t1 t2 t3 : TierTerms)
    (fetch : Nat → TierTerms → Nat → Option (List String)) :
    List RItem :=
  (tier3Run t1 t2 t3 fetch).1.take 40

/-- All four term fields empty: an inactive tier. -/
def emptyTerms : TierTerms := ⟨"", "", "", ""⟩

/-! ## Lemmas about `save_results` -/

/-- Every branch of the per-item body increments `processed` by one. -/
theorem processOne_processed (check : Bool) (lenv : Nat → Option Bool)
    (cenv : Nat → Bool) (total idx : Nat) (t : Item × String × Nat)
    (s : Stats) :
    (processOne check lenv cenv total idx t s).stats.processed
      = s.processed + 1 := by
  unfold processOne attemptCreate
  repeat' split
  all_goals rfl

/-- Every branch of the per-item body increments exactly one of the three
outcome counters together with `processed`. -/
theorem processOne_partition (check : Bool) (lenv : Nat → Option Bool)
    (cenv : Nat → Bool) (total idx : Nat) (t : Item × String × Nat)
    (s : Stats)
    (h : s.created + s.duplicates + s.errors = s.processed) :
    (processOne check lenv cenv total idx t s).stats.created
        + (processOne check lenv cenv total idx t s).stats.duplicates
        + (processOne check lenv cenv total idx t s).stats.errors
      = (processOne check lenv cenv total idx t s).stats.processed := by
  unfold processOne attemptCreate
  repeat' split
  all_goals simp only []
  all_goals omega

/-- The per-item body invokes the callback exactly once when the item's
link is non-empty (with `idx + 1` as first argument) and not at all when
the link is empty. -/
theorem processOne_calls_fst (check : Bool) (lenv : Nat → Option Bool)
    (cenv : Nat → Bool) (total idx : Nat) (t : Item × String × Nat)
    (s : Stats) :
    (processOne check lenv cenv total idx t s).calls.map
        (fun c => c.1)
      = if t.1.link = "" then [] else [idx + 1] := by
  unfold processOne attemptCreate
  repeat' split
  all_goals simp

/-- With the duplicate check off, the per-item body issues only record
creations. -/
theorem processOne_ops_nocheck (lenv : Nat → Option Bool)
    (cenv : Nat → Bool) (total idx : Nat) (t : Item × String × Nat)
    (s : Stats) :
    (processOne false lenv cenv total idx t s).ops.all Op.isCreate
      = true := by
  unfold processOne attemptCreate
  repeat' split
  all_goals simp_all [Op.isCreate]

/-- The batch loop increments `processed` once per item. -/
theorem saveLoop_processed (check : Bool) (lenv : Nat → Option Bool)
    (cenv : Nat → Bool) (total : Nat)
    (ts : List (Item × String × Nat)) (idx : Nat) (s : Stats) :
    (saveLoop check lenv cenv total idx ts s).stats.processed
      = s.processed + ts.length := by
  induction ts generalizing idx s with
  | nil => rfl
  | cons t ts ih =>
    simp only [saveLoop, ih, processOne_processed, List.length_cons]
    omega

/-- The batch loop preserves the counter partition invariant. -/
theorem saveLoop_partition (check : Bool) (lenv : Nat → Option Bool)
    (cenv : Nat → Bool) (total : Nat)
    (ts : List (Item × String × Nat)) (idx : Nat) (s : Stats)
    (h : s.created + s.duplicates + s.errors = s.processed) :
    (saveLoop check lenv cenv total idx ts s).stats.created
        + (saveLoop check lenv cenv total idx ts s).stats.duplicates
        + (saveLoop check lenv cenv total idx ts s).stats.errors
      = (saveLoop check lenv cenv total idx ts s).stats.processed := by
  induction ts generalizing idx s with
  | nil => exact h
  | cons t ts ih =>
    exact ih (idx + 1) _
      (processOne_partition check lenv cenv total idx t s h)

/-- The first components of the batch loop's callback trace are exactly
`idx + 1` for the positions `idx` (counting from the loop's starting
index) of the items whose link is non-empty, in order. -/
theorem saveLoop_calls_fst (check : Bool) (lenv : Nat → Option Bool)
    (cenv : Nat → Bool) (total : Nat)
    (ts : List (Item × String × Nat)) (idx : Nat) (s : Stats) :
    (saveLoop check lenv cenv total idx ts s).calls.map (fun c => c.1)
      = ((ts.enumFrom idx).filter
          (fun p => !(p.2.1.link == ""))).map (fun p => p.1 + 1) := by
  induction ts generalizing idx s with
  | nil => rfl
  | cons t ts ih =>
    simp only [saveLoop, List.map_append, processOne_calls_fst, ih,
      List.enumFrom_cons, List.filter_cons]
    by_cases h : t.1.link = ""
    · simp [h]
    · simp [h]

/-- With the duplicate check off, the batch loop issues only record
creations. -/
theorem saveLoop_ops_nocheck (lenv : Nat → Option Bool)
    (cenv : Nat → Bool) (total : Nat)
    (ts : List (Item × String × Nat)) (idx : Nat) (s : Stats) :
    (saveLoop false lenv cenv total idx ts s).ops.all Op.isCreate
      = true := by
  induction ts generalizing idx s with
  | nil => rfl
  | cons t ts ih =>
    simp only [saveLoop, List.all_append, Bool.and_eq_true]
    exact ⟨processOne_ops_nocheck lenv cenv total idx t s, ih (idx + 1) _⟩

/-- The flattened worklist has one entry per input item. -/
theorem flattenItems_length (results : List (String × List Item))
    (queries : List (String × String)) (prio : Nat) :
    (flattenItems results queries prio).length = totalItems results := by
  rw [flattenItems, totalItems, List.length_flatMap]
  congr 1
  apply List.map_congr_left
  intro wp _
  simp [Function.comp_def]

/-! ## Claims about `save_results` -/

/-- C3 (counterexample): on an input holding a single item whose link is
empty, `save_results` invokes the progress callback zero times, not once
per input item: the empty-link skip path (lines 115-119 of
`direct_airtable_integration.py`) increments the counters and continues
without calling the callback. -/
theorem c3_counterexample :
    ¬ ((saveResults true (fun _ => some false) (fun _ => true)
          [("w", [⟨"t", "", "", none⟩])] [] 1).calls.length
        = totalItems [("w", [⟨"t", "", "", none⟩])]) := by
  decide

/-- C3 (amended): `save_results` invokes the progress callback exactly
once per input item whose link is non-empty, in input order (the first
callback argument is the item's 1-based position in the flattened
worklist); items skipped because their link is empty produce no callback
invocation, so the number of invocations equals the number of input
items with a non-empty link. -/
theorem c3_amended_callback_per_nonempty_link (check : Bool)
    (lenv : Nat → Option Bool) (cenv : Nat → Bool)
    (results : List (String × List Item))
    (queries : List (String × String)) (prio : Nat) :
    (saveResults check lenv cenv results queries prio).calls.map
        (fun c => c.1)
      = ((flattenItems results queries prio).enum.filter
          (fun p => !(p.2.1.link == ""))).map (fun p => p.1 + 1) := by
  rw [saveResults, List.enum_eq_enumFrom]
  exact saveLoop_calls_fst check lenv cenv _ _ 0 _

/-- C7: for every input mapping and every store behaviour, the
`processed` counter returned by `save_results` equals the total number
of input items across all sites. -/
theorem c7_processed_eq_total (check : Bool) (lenv : Nat → Option Bool)
    (cenv : Nat → Bool) (results : List (String × List Item))
    (queries : List (String × String)) (prio : Nat) :
    (saveResults check lenv cenv results queries prio).stats.processed
      = totalItems results := by
  rw [saveResults, saveLoop_processed, flattenItems_length]
  simp

/-- C8: with `check_duplicates=false`, every store operation issued by
`save_results` is a record creation: no duplicate-lookup request is ever
issued during the batch. -/
theorem c8_no_lookup_without_check (lenv : Nat → Option Bool)
    (cenv : Nat → Bool) (results : List (String × List Item))
    (queries : List (String × String)) (prio : Nat) :
    ((saveResults false lenv cenv results queries prio).ops).all
        Op.isCreate = true := by
  rw [saveResults]
  exact saveLoop_ops_nocheck lenv cenv _ _ 0 _

/-- C9: if the duplicate lookup for an item raises (`lenv idx = none`),
the item is treated as having no duplicate: the write is still
attempted right after the failed lookup, the item is not counted as a
duplicate, and it is processed like any other item; moreover the batch
is never aborted by a lookup failure — whatever the lookup oracle does,
every input item is processed. -/
theorem c9_lookup_failure_falls_through :
    (∀ (lenv : Nat → Option Bool) (cenv : Nat → Bool)
        (total idx : Nat) (t : Item × String × Nat) (s : Stats),
        t.1.link ≠ "" → lenv idx = none →
        (processOne true lenv cenv total idx t s).ops
            = [Op.lookup t.1.link, Op.create t.1.link]
          ∧ (processOne true lenv cenv total idx t s).stats.duplicates
              = s.duplicates
          ∧ (processOne true lenv cenv total idx t s).stats.processed
              = s.processed + 1)
    ∧ ∀ (lenv : Nat → Option Bool) (cenv : Nat → Bool)
        (results : List (String × List Item))
        (queries : List (String × String)) (prio : Nat),
        (saveResults true lenv cenv results queries prio).stats.processed
          = totalItems results := by
  constructor
  · intro lenv cenv total idx t s h1 h2
    cases hcv : cenv idx
    all_goals simp [processOne, attemptCreate, h1, h2, hcv]
  · intro lenv cenv results queries prio
    exact c7_processed_eq_total true lenv cenv results queries prio

/-- C9 (witness): a concrete run in which the lookup for the single item
raises and the write then succeeds: the operation trace is the lookup
followed by the creation, no duplicate is counted, and the item is
processed. -/
theorem c9_witness :
    (("u" : String) ≠ "" ∧ (fun _ : Nat => (none : Option Bool)) 0 = none)
      ∧ (processOne true (fun _ => none) (fun _ => true) 1 0
            (⟨"t", "u", "", none⟩, ("q", 1)) ⟨0, 0, 0, 0⟩).ops
          = [Op.lookup "u", Op.create "u"]
        ∧ (processOne true (fun _ => none) (fun _ => true) 1 0
            (⟨"t", "u", "", none⟩, ("q", 1)) ⟨0, 0, 0, 0⟩).stats.duplicates
            = 0
        ∧ (processOne true (fun _ => none) (fun _ => true) 1 0
            (⟨"t", "u", "", none⟩, ("q", 1)) ⟨0, 0, 0, 0⟩).stats.processed
            = 0 + 1 :=
  ⟨⟨by decide, rfl⟩,
    c9_lookup_failure_falls_through.1 (fun _ => none) (fun _ => true) 1 0
      (⟨"t", "u", "", none⟩, ("q", 1)) ⟨0, 0, 0, 0⟩ (by decide) rfl⟩

/-- C10: for every input mapping and every store behaviour, the stats
returned by `save_results` satisfy
`created + duplicates + errors = processed`: each processed item lands
in exactly one outcome bucket. -/
theorem c10_stats_partition (check : Bool) (lenv : Nat → Option Bool)
    (cenv : Nat → Bool) (results : List (String × List Item))
    (queries : List (String × String)) (prio : Nat) :
    (saveResults check lenv cenv results queries prio).stats.created
        + (saveResults check lenv cenv results queries prio).stats.duplicates
        + (saveResults check lenv cenv results queries prio).stats.errors
      = (saveResults check lenv cenv results queries prio).stats.processed := by
  rw [saveResults]
  exact saveLoop_partition check lenv cenv _ _ 0 _ rfl

/-! ## Lemmas about the accumulator -/

/-- Merging a page grows the accumulated list by at most the page's raw
item count. -/
theorem tierStep_length_le (dedup : Bool) (prio : Nat) (acc : List RItem)
    (items : List String) :
    (tierStep dedup prio acc items).length
      ≤ acc.length + items.length := by
  unfold tierStep dedupExtend
  split
  · rw [List.length_append]
    have h := List.length_filter_le
      (fun it => decide (¬ it.link ∈ acc.map RItem.link))
      (items.map (fun l => RItem.mk l prio))
    simp only [List.length_map] at h
    omega
  · simp

/-- A tier's page loop issues at most `fuel` requests. -/
theorem tierLoop_requests_le (dedup : Bool) (prio : Nat)
    (f : Nat → Option (List String)) (fuel page : Nat)
    (acc : List RItem) :
    (tierLoop dedup prio f fuel page acc).2 ≤ fuel := by
  induction fuel generalizing page acc with
  | zero => exact Nat.le_refl 0
  | succ n ih =>
    simp only [tierLoop]
    cases hf : f page with
    | none => simp
    | some items =>
      simp only
      split
      · simp
      · have := ih (page + 1) (tierStep dedup prio acc items)
        simp only
        omega

/-- If the first `k` pages fetched by a tier each return exactly 10 raw
items, page `k` returns fewer than 10, and the accumulated count cannot
reach the cap in the meantime, then the page loop issues exactly `k + 1`
requests: it stops immediately after the short page. -/
theorem tierLoop_stops_at_short_page (dedup : Bool) (prio : Nat)
    (f : Nat → Option (List String)) (k : Nat) :
    ∀ (fuel page : Nat) (acc : List RItem),
    k < fuel →
    (∀ j, j < k → ∃ its, f (page + j) = some its ∧ its.length = 10) →
    (∃ its, f (page + k) = some its ∧ its.length < 10) →
    acc.length + 10 * k < 40 →
    (tierLoop dedup prio f fuel page acc).2 = k + 1 := by
  induction k with
  | zero =>
    intro fuel page acc hfuel hall hshort hlen
    obtain ⟨its, hits, hlt⟩ := hshort
    rw [Nat.add_zero] at hits
    cases fuel with
    | zero => omega
    | succ n =>
      simp only [tierLoop, hits]
      rw [if_pos]
      simp only [Bool.or_eq_true, decide_eq_true_eq]
      exact Or.inr hlt
  | succ k ih =>
    intro fuel page acc hfuel hall hshort hlen
    cases fuel with
    | zero => omega
    | succ n =>
      obtain ⟨its0, hits0, hlen0⟩ := hall 0 (Nat.succ_pos k)
      rw [Nat.add_zero] at hits0
      have hstep := tierStep_length_le dedup prio acc its0
      rw [hlen0] at hstep
      simp only [tierLoop, hits0]
      rw [if_neg]
      · have hrec := ih n (page + 1) (tierStep dedup prio acc its0)
          (by omega)
          (fun j hj => by
            have h := hall (j + 1) (by omega)
            rw [show page + (j + 1) = page + 1 + j from by omega] at h
            exact h)
          (by
            obtain ⟨its, hits, hlt⟩ := hshort
            refine ⟨its, ?_, hlt⟩
            rw [show page + 1 + k = page + (k + 1) from by omega]
            exact hits)
          (by omega)
        simp only [hrec]
      · simp only [Bool.or_eq_true, decide_eq_true_eq]
        push_neg
        exact ⟨by omega, by omega⟩

/-- Every item a merge step adds either was already accumulated or
carries the merging tier's priority tag. -/
theorem tierStep_mem (dedup : Bool) (prio : Nat) (acc : List RItem)
    (items : List String) (it : RItem)
    (h : it ∈ tierStep dedup prio acc items) :
    it ∈ acc ∨ it.priority = prio := by
  unfold tierStep dedupExtend at h
  split at h
  · rcases List.mem_append.mp h with h | h
    · exact Or.inl h
    · right
      obtain ⟨l, _, rfl⟩ := List.mem_map.mp (List.mem_of_mem_filter h)
      rfl
  · rcases List.mem_append.mp h with h | h
    · exact Or.inl h
    · right
      obtain ⟨l, _, rfl⟩ := List.mem_map.mp h
      rfl

/-- A merge step keeps every already-accumulated item. -/
theorem tierStep_mem_of_mem (dedup : Bool) (prio : Nat)
    (acc : List RItem) (items : List String) (it : RItem)
    (h : it ∈ acc) : it ∈ tierStep dedup prio acc items := by
  unfold tierStep dedupExtend
  split
  · exact List.mem_append_left _ h
  · exact List.mem_append_left _ h

/-- Every item a page loop returns either was already accumulated or
carries the tier's priority tag. -/
theorem tierLoop_mem_priority (dedup : Bool) (prio : Nat)
    (f : Nat → Option (List String)) (fuel page : Nat)
    (acc : List RItem) (it : RItem)
    (h : it ∈ (tierLoop dedup prio f fuel page acc).1) :
    it ∈ acc ∨ it.priority = prio := by
  induction fuel generalizing page acc with
  | zero => exact Or.inl h
  | succ n ih =>
    simp only [tierLoop] at h
    cases hf : f page with
    | none =>
      rw [hf] at h
      exact Or.inl h
    | some items =>
      rw [hf] at h
      simp only at h
      split at h
      · exact tierStep_mem dedup prio acc items it h
      · rcases ih (page + 1) (tierStep dedup prio acc items) h with h2 | h2
        · exact tierStep_mem dedup prio acc items it h2
        · exact Or.inr h2

/-- A page loop keeps every already-accumulated item. -/
theorem tierLoop_mem_of_mem (dedup : Bool) (prio : Nat)
    (f : Nat → Option (List String)) (fuel page : Nat)
    (acc : List RItem) (it : RItem) (h : it ∈ acc) :
    it ∈ (tierLoop dedup prio f fuel page acc).1 := by
  induction fuel generalizing page acc with
  | zero => exact h
  | succ n ih =>
    simp only [tierLoop]
    cases hf : f page with
    | none => exact h
    | some items =>
      simp only
      split
      · exact tierStep_mem_of_mem dedup prio acc items it h
      · exact ih (page + 1) _ (tierStep_mem_of_mem dedup prio acc items it h)

/-- Links present in the accumulated list stay present after a merge
step. -/
theorem tierStep_link_mem (dedup : Bool) (prio : Nat)
    (acc : List RItem) (items : List String) (l : String)
    (h : l ∈ acc.map RItem.link) :
    l ∈ (tierStep dedup prio acc items).map RItem.link := by
  obtain ⟨it, hit, rfl⟩ := List.mem_map.mp h
  exact List.mem_map.mpr ⟨it, tierStep_mem_of_mem dedup prio acc items it hit, rfl⟩

/-- With deduplication on, every item a merge step adds either was
already accumulated or has a link that was not yet accumulated. -/
theorem tierStep_mem_dedup (prio : Nat) (acc : List RItem)
    (items : List String) (it : RItem)
    (h : it ∈ tierStep true prio acc items) :
    it ∈ acc ∨ ¬ it.link ∈ acc.map RItem.link := by
  unfold tierStep dedupExtend at h
  rw [if_pos rfl] at h
  rcases List.mem_append.mp h with h | h
  · exact Or.inl h
  · right
    have hp := List.of_mem_filter h
    simpa using hp

/-- With deduplication on, every item a page loop returns either was
already accumulated or has a link that was not yet accumulated when the
loop started. -/
theorem tierLoop_mem_dedup (prio : Nat)
    (f : Nat → Option (List String)) (fuel page : Nat)
    (acc : List RItem) (it : RItem)
    (h : it ∈ (tierLoop true prio f fuel page acc).1) :
    it ∈ acc ∨ ¬ it.link ∈ acc.map RItem.link := by
  induction fuel generalizing page acc with
  | zero => exact Or.inl h
  | succ n ih =>
    simp only [tierLoop] at h
    cases hf : f page with
    | none =>
      rw [hf] at h
      exact Or.inl h
    | some items =>
      rw [hf] at h
      simp only at h
      split at h
      · exact tierStep_mem_dedup prio acc items it h
      · rcases ih (page + 1) (tierStep true prio acc items) h with h2 | h2
        · exact tierStep_mem_dedup prio acc items it h2
        · right
          intro hmem
          exact h2 (tierStep_link_mem true prio acc items it.link hmem)

/-- The deduplicating merge preserves distinctness of links, provided
the merged page's links are themselves distinct. -/
theorem dedupExtend_nodup (acc ts : List RItem)
    (h1 : (acc.map RItem.link).Nodup)
    (h2 : (ts.map RItem.link).Nodup) :
    ((dedupExtend acc ts).map RItem.link).Nodup := by
  unfold dedupExtend
  rw [List.map_append]
  have hsub :
      ((ts.filter (fun it =>
          decide (¬ it.link ∈ acc.map RItem.link))).map RItem.link).Sublist
        (ts.map RItem.link) :=
    (List.filter_sublist ts).map RItem.link
  refine List.Nodup.append h1 (List.Nodup.sublist hsub h2) ?_
  intro a ha hb
  obtain ⟨it, hit, rfl⟩ := List.mem_map.mp hb
  have hp := List.of_mem_filter hit
  simp only [decide_eq_true_eq] at hp
  exact hp ha

/-- With deduplication on, a page loop preserves distinctness of links
whenever every page the service returns has internally distinct
links. -/
theorem tierLoop_nodup (prio : Nat) (f : Nat → Option (List String))
    (fuel page : Nat) (acc : List RItem)
    (h1 : (acc.map RItem.link).Nodup)
    (h2 : ∀ p its, f p = some its → its.Nodup) :
    (((tierLoop true prio f fuel page acc).1).map RItem.link).Nodup := by
  induction fuel generalizing page acc with
  | zero => exact h1
  | succ n ih =>
    simp only [tierLoop]
    cases hf : f page with
    | none => exact h1
    | some items =>
      have hstep :
          ((tierStep true prio acc items).map RItem.link).Nodup := by
        unfold tierStep
        rw [if_pos rfl]
        apply dedupExtend_nodup acc _ h1
        rw [List.map_map]
        show (items.map (fun l => l)).Nodup
        rw [List.map_id']
        exact h2 page items hf
      simp only
      split
      · exact hstep
      · exact ih (page + 1) (tierStep true prio acc items) hstep

/-! ## Claims about the accumulator -/

/-- C5: for every choice of tier terms and every search-service
behaviour, the final per-site result list contains at most 40 items. -/
theorem c5_result_le_40 (t1 t2 t3 : TierTerms)
    (fetch : Nat → TierTerms → Nat → Option (List String)) :
    (runSite t1 t2 t3 fetch).length ≤ 40 := by
  rw [runSite, List.length_take]
  exact min_le_left _ _

/-- C2 (counterexample): tier 1 is queried even when all four of its
term fields are empty — the tier-1 page loop of `main.py` (line 186)
has no emptiness guard, unlike tiers 2 and 3.  With all tier-1 fields
empty and a service that returns an empty page, one tier-1 request is
still issued. -/
theorem c2_counterexample :
    tierActive emptyTerms = false
      ∧ ¬ ((tier1Run emptyTerms (fun _ _ _ => some [])).2 = 0) := by
  decide

/-- C2 (amended): tiers 2 and 3 are never queried when all four of
their term fields are empty, even when earlier tiers left the
accumulated count below the cap of 40; tier 1, however, is always
queried regardless of its term fields. -/
theorem c2_amended_inactive_tier23_skipped (t1 t2 t3 : TierTerms)
    (fetch : Nat → TierTerms → Nat → Option (List String)) :
    (tierActive t2 = false → (tier2Run t1 t2 fetch).2 = 0)
      ∧ (tierActive t3 = false → (tier3Run t1 t2 t3 fetch).2 = 0) := by
  constructor
  · intro h
    simp [tier2Run, h]
  · intro h
    simp [tier3Run, h]

/-- C2 (witness): with empty tier-2 and tier-3 fields and a concrete
service, neither tier issues a request. -/
theorem c2_amended_witness :
    (tier2Run emptyTerms emptyTerms (fun _ _ _ => some [])).2 = 0
      ∧ (tier3Run emptyTerms emptyTerms emptyTerms
          (fun _ _ _ => some [])).2 = 0 :=
  ⟨(c2_amended_inactive_tier23_skipped emptyTerms emptyTerms emptyTerms
      (fun _ _ _ => some [])).1 rfl,
    (c2_amended_inactive_tier23_skipped emptyTerms emptyTerms emptyTerms
      (fun _ _ _ => some [])).2 rfl⟩

/-- C1 (counterexample): links are not pairwise distinct for every
service behaviour: tier 1 performs no deduplication (lines 192-196 of
`main.py`), so a tier-1 page that repeats a link yields a result list
with a repeated link. -/
theorem c1_counterexample :
    ¬ ((runSite emptyTerms emptyTerms emptyTerms
          (fun tr _ p => if tr = 1 && p = 0 then some ["a", "a"]
            else some [])).map RItem.link).Nodup := by
  decide

/-- C1 (amended): after accumulation the link values of a site's result
list are pairwise distinct, provided the tier-1 accumulation already
has pairwise-distinct links (tier 1 itself never deduplicates) and
every page returned by the service has internally distinct links (the
tier-2/3 merge only filters against items accumulated before the page,
so an in-page repeat would be kept twice). -/
theorem c1_amended_links_nodup (t1 t2 t3 : TierTerms)
    (fetch : Nat → TierTerms → Nat → Option (List String))
    (h1 : (((tier1Run t1 fetch).1).map RItem.link).Nodup)
    (h2 : ∀ tr tm p its, fetch tr tm p = some its → its.Nodup) :
    ((runSite t1 t2 t3 fetch).map RItem.link).Nodup := by
  have ha2 : (((tier2Run t1 t2 fetch).1).map RItem.link).Nodup := by
    rw [tier2Run]
    split
    · exact tierLoop_nodup 2 (fetch 2 t2) 8 0 _ h1
        (fun p its h => h2 2 t2 p its h)
    · exact h1
  have ha3 : (((tier3Run t1 t2 t3 fetch).1).map RItem.link).Nodup := by
    rw [tier3Run]
    split
    · exact tierLoop_nodup 3 (fetch 3 t3) 10 0 _ ha2
        (fun p its h => h2 3 t3 p its h)
    · exact ha2
  rw [runSite]
  exact List.Nodup.sublist ((List.take_sublist 40 _).map RItem.link) ha3

/-- A concrete service for the C1 witness: tier 1 page 0 returns one
link, every other request returns an empty page. -/
def exFetchOne : Nat → TierTerms → Nat → Option (List String) :=
  fun tr _ p => if tr = 1 && p = 0 then some ["a"] else some []

/-- C1 (witness): a concrete run satisfying both hypotheses of the
amended claim, whose result list indeed has pairwise-distinct links. -/
theorem c1_amended_witness :
    ((((tier1Run emptyTerms exFetchOne).1).map RItem.link).Nodup
        ∧ ∀ tr tm p its, exFetchOne tr tm p = some its → its.Nodup)
      ∧ ((runSite emptyTerms emptyTerms emptyTerms exFetchOne).map
          RItem.link).Nodup := by
  have h2 : ∀ tr tm p its, exFetchOne tr tm p = some its → its.Nodup := by
    intro tr tm p its h
    unfold exFetchOne at h
    split at h
    · cases h
      decide
    · cases h
      decide
  exact ⟨⟨by decide, h2⟩,
    c1_amended_links_nodup emptyTerms emptyTerms emptyTerms exFetchOne
      (by decide) h2⟩

/-- C4: first-tier-wins.  If an item of the final result list has a
link that tier 1 accumulated, that item carries priority 1: tiers 2 and
3 drop re-discoveries of accumulated links instead of re-tagging
them. -/
theorem c4_first_tier_wins (t1 t2 t3 : TierTerms)
    (fetch : Nat → TierTerms → Nat → Option (List String)) (it : RItem)
    (hmem : it ∈ runSite t1 t2 t3 fetch)
    (hlink : it.link ∈ ((tier1Run t1 fetch).1).map RItem.link) :
    it.priority = 1 := by
  have ha1 : ∀ x ∈ (tier1Run t1 fetch).1, x ∈ (tier2Run t1 t2 fetch).1 := by
    intro x hx
    rw [tier2Run]
    split
    · exact tierLoop_mem_of_mem true 2 (fetch 2 t2) 8 0 _ x hx
    · exact hx
  have hlink2 : it.link ∈ ((tier2Run t1 t2 fetch).1).map RItem.link := by
    obtain ⟨x, hx, hxe⟩ := List.mem_map.mp hlink
    exact List.mem_map.mpr ⟨x, ha1 x hx, hxe⟩
  rw [runSite] at hmem
  have hmem3 : it ∈ (tier3Run t1 t2 t3 fetch).1 :=
    List.mem_of_mem_take hmem
  have hmem2 : it ∈ (tier2Run t1 t2 fetch).1 := by
    rw [tier3Run] at hmem3
    split at hmem3
    · rcases tierLoop_mem_dedup 3 (fetch 3 t3) 10 0 _ it hmem3 with h | h
      · exact h
      · exact absurd hlink2 h
    · exact hmem3
  have hmem1 : it ∈ (tier1Run t1 fetch).1 := by
    rw [tier2Run] at hmem2
    split at hmem2
    · rcases tierLoop_mem_dedup 2 (fetch 2 t2) 8 0 _ it hmem2 with h | h
      · exact h
      · exact absurd hlink h
    · exact hmem2
  rcases tierLoop_mem_priority false 1 (fetch 1 t1) 4 0 [] it hmem1
    with h | h
  · exact absurd h (List.not_mem_nil it)
  · exact h

/-- Tier terms with a single non-empty field, activating a tier. -/
def qTerms : TierTerms := ⟨"q", "", "", ""⟩

/-- A concrete service for the C4 witness: tier 1 returns the single
link `x`; tiers 2 and 3 return the links `x` and `y`, re-discovering
`x`. -/
def exFetchC4 : Nat → TierTerms → Nat → Option (List String) :=
  fun tr _ _ => if tr = 1 then some ["x"] else some ["x", "y"]

/-- C4 (witness): in a concrete run where tier 2 re-discovers the
tier-1 link `x`, the retained item with link `x` has priority 1. -/
theorem c4_witness :
    ((⟨"x", 1⟩ : RItem) ∈ runSite emptyTerms qTerms emptyTerms exFetchC4
        ∧ (⟨"x", 1⟩ : RItem).link
            ∈ ((tier1Run emptyTerms exFetchC4).1).map RItem.link)
      ∧ (⟨"x", 1⟩ : RItem).priority = 1 :=
  ⟨⟨by decide, by decide⟩,
    c4_first_tier_wins emptyTerms qTerms emptyTerms exFetchC4
      ⟨"x", 1⟩ (by decide) (by decide)⟩

/-- C6: each tier's page loop issues at most the tier's page budget of
requests (tier 1: 4, tier 2: 8, tier 3: 10), and it stops immediately
after any page that returns fewer than 10 raw items: if the first `k`
pages each return exactly 10 raw items (staying under the cap), and
page `k` returns fewer than 10, then exactly `k + 1` page requests are
issued. -/
theorem c6_page_budget_and_early_stop :
    (∀ (t1 : TierTerms)
        (fetch : Nat → TierTerms → Nat → Option (List String)),
        (tier1Run t1 fetch).2 ≤ 4)
    ∧ (∀ (t1 t2 : TierTerms)
        (fetch : Nat → TierTerms → Nat → Option (List String)),
        (tier2Run t1 t2 fetch).2 ≤ 8)
    ∧ (∀ (t1 t2 t3 : TierTerms)
        (fetch : Nat → TierTerms → Nat → Option (List String)),
        (tier3Run t1 t2 t3 fetch).2 ≤ 10)
    ∧ (∀ (dedup : Bool) (prio : Nat) (f : Nat → Option (List String))
        (fuel : Nat) (acc : List RItem) (k : Nat),
        k < fuel →
        (∀ j, j < k → ∃ its, f j = some its ∧ its.length = 10) →
        (∃ its, f k = some its ∧ its.length < 10) →
        acc.length + 10 * k < 40 →
        (tierLoop dedup prio f fuel 0 acc).2 = k + 1) := by
  refine ⟨?_, ?_, ?_, ?_⟩
  · intro t1 fetch
    exact tierLoop_requests_le false 1 (fetch 1 t1) 4 0 []
  · intro t1 t2 fetch
    rw [tier2Run]
    split
    · exact tierLoop_requests_le true 2 (fetch 2 t2) 8 0 _
    · exact Nat.zero_le 8
  · intro t1 t2 t3 fetch
    rw [tier3Run]
    split
    · exact tierLoop_requests_le true 3 (fetch 3 t3) 10 0 _
    · exact Nat.zero_le 10
  · intro dedup prio f fuel acc k hk hall hshort hlen
    refine tierLoop_stops_at_short_page dedup prio f k fuel 0 acc hk
      (fun j hj => ?_) ?_ hlen
    · rw [Nat.zero_add]
      exact hall j hj
    · rw [Nat.zero_add]
      exact hshort

/-- Ten distinct links, one full page. -/
def tenLinks : List String :=
  ["a0", "a1", "a2", "a3", "a4", "a5", "a6", "a7", "a8", "a9"]

/-- A concrete per-tier service for the C6 witness: pages 0 and 1
return 10 raw items each, page 2 (and beyond) returns 3. -/
def exPages : Nat → Option (List String) :=
  fun p => if p < 2 then some tenLinks else some ["b0", "b1", "b2"]

/-- C6 (witness): a concrete tier-1 run whose pages return 10, 10, 3
raw items issues exactly 3 of its 4 budgeted page requests. -/
theorem c6_witness :
    (tier1Run emptyTerms (fun _ _ p => exPages p)).2 ≤ 4
      ∧ (tierLoop false 1 exPages 4 0 []).2 = 2 + 1 :=
  ⟨c6_page_budget_and_early_stop.1 emptyTerms (fun _ _ p => exPages p),
    c6_page_budget_and_early_stop.2.2.2 false 1 exPages 4 [] 2
      (by decide)
      (fun j hj => ⟨tenLinks, by
        unfold exPages
        rw [if_pos hj], rfl⟩)
      ⟨["b0", "b1", "b2"], rfl, by decide⟩
      (by decide)⟩
